import Mathlib

/-!
Shallow embedding of the course-library backend (Fastify + Prisma):
the auth controller (register / login) and the course routes
(list, detail, create, update, delete, resources, comments),
together with theorems about the observable behaviour of each handler.

Machine state is the relational store (users, courses, resources,
comments) embedded as lists of records; each handler is a pure function
from the store and the request data to an HTTP-style result and the new
store.  Password hashing and verification are abstract parameters
(`hash`, `checkPw`), since the handlers only thread them through.
-/

namespace CourseLib

/-- `Role` enum from the Prisma schema. -/
inductive Role where
  | STUDENT
  | PROFESSOR
deriving DecidableEq, Repr

/-- `ResourceType` enum from the Prisma schema. -/
inductive ResourceType where
  | PDF
  | LINK
  | VIDEO
deriving DecidableEq, Repr

/-- `User` row: id, unique email, display name, stored password hash, role. -/
structure User where
  id : String
  email : String
  name : String
  password : String
  role : Role
deriving DecidableEq, Repr

/-- `Course` row. -/
structure Course where
  id : String
  title : String
  description : String
  category : String
  createdAt : Nat
  ownerId : String
deriving DecidableEq, Repr

/-- `Resource` row. -/
structure Resource where
  id : String
  title : String
  url : String
  type : ResourceType
  createdAt : Nat
  courseId : String
deriving DecidableEq, Repr

/-- `Comment` row. -/
structure Comment where
  id : String
  content : String
  createdAt : Nat
  courseId : String
  userId : String
deriving DecidableEq, Repr

/-- The relational store. -/
structure DB where
  users : List User
  courses : List Course
  resources : List Resource
  comments : List Comment
deriving DecidableEq, Repr

/-- Identity claim decoded from the JWT cookie by the `authenticate`
preHandler: `{sub, email, name, role}` (payload signed at login). -/
structure IdClaim where
  sub : String
  email : String
  name : String
  role : Role
deriving DecidableEq, Repr

/-- Public account projection `{id, email, name, role}` returned by
register/login (`select` clause in the controller). -/
structure UserView where
  id : String
  email : String
  name : String
  role : Role
deriving DecidableEq, Repr

/-- Owner/author projection `{id, name}` (`select: { id, name }`). -/
structure UserProj where
  id : String
  name : String
deriving DecidableEq, Repr

/-- HTTP-style outcome: success payload, or an error status with the
JSON `message` body. -/
inductive ApiResult (α : Type) where
  | ok : α → ApiResult α
  | err : Nat → String → ApiResult α
deriving DecidableEq, Repr

/-- JS `String.prototype.trim`: strip whitespace from both ends,
modelled on the character list (the core `String.trim` is observably the
same but does not reduce in the kernel). -/
def strTrim (s : String) : String :=
  ⟨((s.data.dropWhile Char.isWhitespace).reverse.dropWhile
      Char.isWhitespace).reverse⟩

/-- Case folding used by the insensitive matches: lowercase every
character. -/
def strLower (s : String) : String :=
  ⟨s.data.map Char.toLower⟩

/-- Case-insensitive substring test over character lists:
`listContainsSub hay needle` is the Prisma `contains` semantics once both
sides are lowercased. -/
def listContainsSub : List Char → List Char → Bool
  | _, [] => true
  | [], _ :: _ => false
  | h :: t, n => List.isPrefixOf n (h :: t) || listContainsSub t n

/-- Prisma `contains` with `mode: "insensitive"`: case-insensitive
substring match. -/
def containsInsensitive (hay needle : String) : Bool :=
  listContainsSub (strLower hay).data (strLower needle).data

/-- Prisma `equals` with `mode: "insensitive"`: case-insensitive string
equality. -/
def eqInsensitive (a b : String) : Bool :=
  strLower a == strLower b

/-- Prisma `orderBy: { createdAt: "desc" }` on a list of records with
key `key`: newest first. -/
def sortCreatedDesc {α : Type} (key : α → Nat) (l : List α) : List α :=
  l.insertionSort (fun a b => key b ≤ key a)

theorem sortCreatedDesc_sorted {α : Type} (key : α → Nat) (l : List α) :
    (sortCreatedDesc key l).Sorted (fun a b => key b ≤ key a) := by
  haveI : IsTotal α (fun a b => key b ≤ key a) :=
    ⟨fun a b => Nat.le_total (key b) (key a)⟩
  haveI : IsTrans α (fun a b => key b ≤ key a) :=
    ⟨fun _ _ _ hab hbc => Nat.le_trans hbc hab⟩
  exact List.sorted_insertionSort _ l

theorem sortCreatedDesc_perm {α : Type} (key : α → Nat) (l : List α) :
    List.Perm (sortCreatedDesc key l) l :=
  List.perm_insertionSort _ l

theorem mem_sortCreatedDesc {α : Type} (key : α → Nat) (l : List α) (a : α) :
    a ∈ sortCreatedDesc key l ↔ a ∈ l :=
  (sortCreatedDesc_perm key l).mem_iff

/-- `authController.register`: blank-field check, duplicate-email check,
hash the password, insert the user (role defaults to `STUDENT` unless
the body says `PROFESSOR`), return the public projection. -/
def register (hash : String → String) (db : DB) (newId : String)
    (email password name : String) (role : Option Role) :
    ApiResult UserView × DB :=
  if email = "" ∨ password = "" ∨ name = "" then
    (.err 400 "email, password, name sunt obligatorii", db)
  else
    match db.users.find? (fun u => u.email == email) with
    | some _ => (.err 409 "Email deja folosit", db)
    | none =>
      let u : User :=
        { id := newId, email := email, name := name,
          password := hash password,
          role := if role = some .PROFESSOR then .PROFESSOR else .STUDENT }
      (.ok ⟨u.id, u.email, u.name, u.role⟩,
        { db with users := db.users ++ [u] })

/-- `authController.login`: blank-field check, look the user up by
email, verify the password against the stored hash; the two failure
paths share one generic 401 body.  On success the controller signs and
sets the cookie and returns the projection; the token side effect is
outside the store, so the result is just the projection. -/
def login (checkPw : String → String → Bool) (db : DB)
    (email password : String) : ApiResult UserView :=
  if email = "" ∨ password = "" then
    .err 400 "email si password sunt obligatorii"
  else
    match db.users.find? (fun u => u.email == email) with
    | none => .err 401 "Email sau parola invalide"
    | some user =>
      if checkPw password user.password then
        .ok ⟨user.id, user.email, user.name, user.role⟩
      else
        .err 401 "Email sau parola invalide"

/-- Body of `POST /courses` (all three fields may be absent at runtime;
the handler reads each as `(body?.field || "")`). -/
structure CourseBody where
  title : String
  description : String
  category : String
deriving DecidableEq, Repr

/-- Body of `PUT /courses/:id`: every field optional. -/
structure UpdateBody where
  title : Option String
  description : Option String
  category : Option String
deriving DecidableEq, Repr

/-- Body of `POST /courses/:id/resources`; `type` is `body?.type`,
absent when the body or the field is missing. -/
structure ResourceBody where
  title : String
  url : String
  type : Option ResourceType
deriving DecidableEq, Repr

/-- `requireProfessor`: 403 unless the identity claim's role is
`PROFESSOR`. -/
def requireProfessor {α : Type} (user : IdClaim) : Option (ApiResult α) :=
  if user.role ≠ .PROFESSOR then
    some (.err 403 "Doar profesorii pot crea sau modifica cursuri")
  else
    none

/-- The `where` clause of `GET /courses`: the `search` spread
(title/description `contains`, insensitive) applies only when the
trimmed value is non-empty, likewise the `category` spread (`equals`,
insensitive); the two spreads conjoin. -/
def courseFilter (searchValue categoryValue : Option String)
    (c : Course) : Bool :=
  (match searchValue with
   | none => true
   | some s =>
     if s = "" then true
     else containsInsensitive c.title s || containsInsensitive c.description s)
  &&
  (match categoryValue with
   | none => true
   | some s =>
     if s = "" then true
     else eqInsensitive c.category s)

/-- `GET /courses`: trim the query parameters, `findMany` with the
conditional spreads, `orderBy createdAt desc`.  (The `include` of the
owner projection and counts does not change which courses are returned
and is omitted from the row type.) -/
def listCourses (db : DB) (search category : Option String) : List Course :=
  let searchValue := search.map strTrim
  let categoryValue := category.map strTrim
  sortCreatedDesc Course.createdAt
    (db.courses.filter (courseFilter searchValue categoryValue))

/-- One comment of the course detail, with its author projection
(`include: { user: { select: { id, name } } }`). -/
structure CommentWithUser where
  comment : Comment
  user : Option UserProj
deriving DecidableEq, Repr

/-- Payload of `GET /courses/:id`. -/
structure CourseDetail where
  course : Course
  owner : Option UserProj
  resources : List Resource
  comments : List CommentWithUser
deriving DecidableEq, Repr

/-- `GET /courses/:id`: `findUnique` with owner projection, resources
ordered newest-first, comments ordered newest-first each with its author
projection; 404 when the course does not exist. -/
def getCourse (db : DB) (id : String) : ApiResult CourseDetail :=
  match db.courses.find? (fun c => c.id == id) with
  | none => .err 404 "Curs inexistent"
  | some course =>
    .ok
      { course := course,
        owner := (db.users.find? (fun u => u.id == course.ownerId)).map
          (fun u => ⟨u.id, u.name⟩),
        resources := sortCreatedDesc Resource.createdAt
          (db.resources.filter (fun r => r.courseId == course.id)),
        comments :=
          (sortCreatedDesc Comment.createdAt
              (db.comments.filter (fun m => m.courseId == course.id))).map
            (fun m =>
              ⟨m, (db.users.find? (fun u => u.id == m.userId)).map
                (fun u => ⟨u.id, u.name⟩)⟩) }

/-- `POST /courses` (authenticated): professor gate, then trim and
require the three fields, then create the course owned by the caller. -/
def createCourse (db : DB) (user : IdClaim) (newId : String) (now : Nat)
    (body : Option CourseBody) : ApiResult Course × DB :=
  match requireProfessor (α := Course) user with
  | some deny => (deny, db)
  | none =>
    let title := strTrim ((body.map CourseBody.title).getD "")
    let description := strTrim ((body.map CourseBody.description).getD "")
    let category := strTrim ((body.map CourseBody.category).getD "")
    if title = "" ∨ description = "" ∨ category = "" then
      (.err 400 "title, description si category sunt obligatorii", db)
    else
      let c : Course :=
        { id := newId, title := title, description := description,
          category := category, createdAt := now, ownerId := user.sub }
      (.ok c, { db with courses := db.courses ++ [c] })

/-- `PUT /courses/:id` (authenticated): existence check, then ownership
check, then per-field validation (trim, reject blank) in source order,
and only then the single `update`. -/
def updateCourse (db : DB) (user : IdClaim) (id : String)
    (body : Option UpdateBody) : ApiResult Course × DB :=
  match db.courses.find? (fun c => c.id == id) with
  | none => (.err 404 "Curs inexistent", db)
  | some course =>
    if course.ownerId ≠ user.sub then
      (.err 403 "Nu ai acces la acest curs", db)
    else
      let tOpt := body.bind UpdateBody.title
      let dOpt := body.bind UpdateBody.description
      let cOpt := body.bind UpdateBody.category
      if tOpt.any (fun t => strTrim t == "") then
        (.err 400 "title invalid", db)
      else if dOpt.any (fun d => strTrim d == "") then
        (.err 400 "description invalid", db)
      else if cOpt.any (fun c => strTrim c == "") then
        (.err 400 "category invalid", db)
      else
        let updated : Course :=
          { course with
            title := (tOpt.map strTrim).getD course.title,
            description := (dOpt.map strTrim).getD course.description,
            category := (cOpt.map strTrim).getD course.category }
        (.ok updated,
          { db with courses :=
              db.courses.map (fun c => if c.id == id then updated else c) })

/-- `DELETE /courses/:id` (authenticated): existence check, ownership
check, then delete (the schema cascades resources and comments). -/
def deleteCourse (db : DB) (user : IdClaim) (id : String) :
    ApiResult String × DB :=
  match db.courses.find? (fun c => c.id == id) with
  | none => (.err 404 "Curs inexistent", db)
  | some course =>
    if course.ownerId ≠ user.sub then
      (.err 403 "Nu ai acces la acest curs", db)
    else
      (.ok "Deleted",
        { db with
          courses := db.courses.filter (fun c => ¬ c.id == id),
          resources := db.resources.filter (fun r => ¬ r.courseId == id),
          comments := db.comments.filter (fun m => ¬ m.courseId == id) })

/-- `POST /courses/:id/resources` (authenticated): existence check,
ownership check, then trim/require title, url and type, then create. -/
def addResource (db : DB) (user : IdClaim) (id : String) (newId : String)
    (now : Nat) (body : Option ResourceBody) : ApiResult Resource × DB :=
  match db.courses.find? (fun c => c.id == id) with
  | none => (.err 404 "Curs inexistent", db)
  | some course =>
    if course.ownerId ≠ user.sub then
      (.err 403 "Nu ai acces la acest curs", db)
    else
      let title := strTrim ((body.map ResourceBody.title).getD "")
      let url := strTrim ((body.map ResourceBody.url).getD "")
      let type := body.bind ResourceBody.type
      match type with
      | none => (.err 400 "title, url si type sunt obligatorii", db)
      | some ty =>
        if title = "" ∨ url = "" then
          (.err 400 "title, url si type sunt obligatorii", db)
        else
          let r : Resource :=
            { id := newId, title := title, url := url, type := ty,
              createdAt := now, courseId := id }
          (.ok r, { db with resources := db.resources ++ [r] })

/-- `DELETE /comments/:id` (authenticated): existence check, authorship
check, then delete. -/
def deleteComment (db : DB) (user : IdClaim) (id : String) :
    ApiResult String × DB :=
  match db.comments.find? (fun m => m.id == id) with
  | none => (.err 404 "Comentariu inexistent", db)
  | some comment =>
    if comment.userId ≠ user.sub then
      (.err 403 "Nu ai acces la acest comentariu", db)
    else
      (.ok "Deleted",
        { db with comments := db.comments.filter (fun m => ¬ m.id == id) })

/-! ## Sample stores for witnesses -/

/-- An empty store. -/
def dbEmpty : DB := { users := [], courses := [], resources := [], comments := [] }

/-- One professor account, for login witnesses. -/
def dbAna : DB :=
  { users := [⟨"u1", "ana@x.ro", "Ana", "pw", .PROFESSOR⟩],
    courses := [], resources := [], comments := [] }

/-! ## Claim theorems -/

/-- C1: a login with an email that matches no account and a login with a
wrong password for an existing account both fail with status 401 and the
identical message body, so the two runs are indistinguishable to the
caller. -/
theorem login_enumeration_resistant (checkPw : String → String → Bool)
    (db : DB) (e1 p1 e2 p2 : String) (u : User)
    (he1 : e1 ≠ "") (hp1 : p1 ≠ "")
    (hno : db.users.find? (fun x => x.email == e1) = none)
    (he2 : e2 ≠ "") (hp2 : p2 ≠ "")
    (hyes : db.users.find? (fun x => x.email == e2) = some u)
    (hbad : checkPw p2 u.password = false) :
    login checkPw db e1 p1 = .err 401 "Email sau parola invalide" ∧
    login checkPw db e2 p2 = login checkPw db e1 p1 := by
  constructor
  · simp [login, he1, hp1, hno]
  · simp [login, he1, hp1, he2, hp2, hno, hyes, hbad]

/-- Witness for C1: in `dbAna`, a nonexistent email and a wrong password
for Ana's account both yield the same 401 response. -/
theorem login_enumeration_resistant_witness :
    login (fun p h => p == h) dbAna "bob@x.ro" "zz" =
        .err 401 "Email sau parola invalide" ∧
    login (fun p h => p == h) dbAna "ana@x.ro" "xx" =
      login (fun p h => p == h) dbAna "bob@x.ro" "zz" :=
  login_enumeration_resistant (fun p h => p == h) dbAna "bob@x.ro" "zz"
    "ana@x.ro" "xx" ⟨"u1", "ana@x.ro", "Ana", "pw", .PROFESSOR⟩
    (by decide) (by decide) rfl (by decide) (by decide) rfl rfl

/-- C6: a register request with any blank required field fails with
status 400 and leaves the store unchanged (no account created). -/
theorem register_blank_invalid (hash : String → String) (db : DB)
    (newId email password name : String) (role : Option Role)
    (h : email = "" ∨ password = "" ∨ name = "") :
    register hash db newId email password name role =
      (.err 400 "email, password, name sunt obligatorii", db) := by
  unfold register
  rw [if_pos h]

/-- Witness for C6: registering with a blank password fails with 400 and
an unchanged store. -/
theorem register_blank_invalid_witness :
    register (fun s => s) dbEmpty "u1" "a@b.ro" "" "Ana" none =
      (.err 400 "email, password, name sunt obligatorii", dbEmpty) :=
  register_blank_invalid (fun s => s) dbEmpty "u1" "a@b.ro" "" "Ana" none
    (Or.inr (Or.inl rfl))

/-- C7 counterexample: after a successful registration of `a@b.ro`, a
second register call with the same email but a blank password returns
status 400 (the blank-field check runs before the duplicate check), not
the 409 Conflict the claim demands regardless of the other fields. -/
theorem register_duplicate_counterexample :
    (register (fun s => String.append "h#" s) dbEmpty "u1" "a@b.ro" "pw"
        "Ana" none).1 = .ok ⟨"u1", "a@b.ro", "Ana", .STUDENT⟩ ∧
    (register (fun s => String.append "h#" s)
        (register (fun s => String.append "h#" s) dbEmpty "u1" "a@b.ro" "pw"
          "Ana" none).2 "u2" "a@b.ro" "" "Bob" none).1 =
      .err 400 "email, password, name sunt obligatorii" ∧
    (register (fun s => String.append "h#" s)
        (register (fun s => String.append "h#" s) dbEmpty "u1" "a@b.ro" "pw"
          "Ana" none).2 "u2" "a@b.ro" "" "Bob" none).1 ≠
      .err 409 "Email deja folosit" := by
  refine ⟨rfl, rfl, ?_⟩
  decide

/-- C7 amended: for a pair of register calls with the same email where
the first succeeds, the second call returns Conflict (409) and creates
no account, provided the second call's password and name are themselves
non-blank (a blank field on the second call instead fails with 400
before the duplicate check). -/
theorem register_duplicate_conflict (hash : String → String) (db : DB)
    (id1 id2 email p1 n1 p2 n2 : String) (r1 r2 : Option Role)
    (he : email ≠ "") (hp1 : p1 ≠ "") (hn1 : n1 ≠ "")
    (hfresh : db.users.find? (fun u => u.email == email) = none)
    (hp2 : p2 ≠ "") (hn2 : n2 ≠ "") :
    (∃ v, (register hash db id1 email p1 n1 r1).1 = .ok v) ∧
    register hash (register hash db id1 email p1 n1 r1).2 id2 email p2 n2 r2 =
      (.err 409 "Email deja folosit",
        (register hash db id1 email p1 n1 r1).2) := by
  have hguard1 : ¬ (email = "" ∨ p1 = "" ∨ n1 = "") := by simp [he, hp1, hn1]
  have hguard2 : ¬ (email = "" ∨ p2 = "" ∨ n2 = "") := by simp [he, hp2, hn2]
  have hfirst : register hash db id1 email p1 n1 r1 =
      (.ok ⟨id1, email, n1,
          if r1 = some .PROFESSOR then .PROFESSOR else .STUDENT⟩,
        { db with users := db.users ++
            [⟨id1, email, n1, hash p1,
              if r1 = some .PROFESSOR then .PROFESSOR else .STUDENT⟩] }) := by
    unfold register
    rw [if_neg hguard1, hfresh]
  refine ⟨⟨_, by rw [hfirst]⟩, ?_⟩
  rw [hfirst]
  unfold register
  rw [if_neg hguard2]
  simp [hfresh]

/-- Witness for C7 amended: registering `a@b.ro` twice with well-formed
bodies yields 409 on the second call and leaves the store as after the
first call. -/
theorem register_duplicate_conflict_witness :
    (∃ v, (register (fun s => s) dbEmpty "u1" "a@b.ro" "pw" "Ana" none).1 =
      .ok v) ∧
    register (fun s => s)
        (register (fun s => s) dbEmpty "u1" "a@b.ro" "pw" "Ana" none).2
        "u2" "a@b.ro" "qq" "Bob" none =
      (.err 409 "Email deja folosit",
        (register (fun s => s) dbEmpty "u1" "a@b.ro" "pw" "Ana" none).2) :=
  register_duplicate_conflict (fun s => s) dbEmpty "u1" "u2" "a@b.ro" "pw"
    "Ana" "qq" "Bob" none none (by decide) (by decide) (by decide) rfl
    (by decide) (by decide)

/-- A professor `u1` owning course `c1`, for route witnesses. -/
def dbCourse : DB :=
  { users := [⟨"u1", "ana@x.ro", "Ana", "pw", .PROFESSOR⟩],
    courses := [⟨"c1", "Web Dev", "Frontend basics", "Web", 5, "u1"⟩],
    resources := [], comments := [] }

/-- Claim of the professor `u1`. -/
def claimAna : IdClaim := ⟨"u1", "ana@x.ro", "Ana", .PROFESSOR⟩

/-- Claim of a student `u2` who owns nothing. -/
def claimBob : IdClaim := ⟨"u2", "bob@x.ro", "Bob", .STUDENT⟩

/-- C2: each owner-gated operation addressing an entity by id returns
404 with the store unchanged when no entity with that id exists, for
every authenticated caller — the ownership check is only reached after
the existence check succeeds, so a missing id never yields 403. -/
theorem missing_entity_notfound (db : DB) (user : IdClaim) (id : String)
    (ubody : Option UpdateBody) (rid : String) (now : Nat)
    (rbody : Option ResourceBody)
    (hc : db.courses.find? (fun c => c.id == id) = none)
    (hm : db.comments.find? (fun m => m.id == id) = none) :
    updateCourse db user id ubody = (.err 404 "Curs inexistent", db) ∧
    deleteCourse db user id = (.err 404 "Curs inexistent", db) ∧
    addResource db user id rid now rbody = (.err 404 "Curs inexistent", db) ∧
    deleteComment db user id = (.err 404 "Comentariu inexistent", db) := by
  refine ⟨?_, ?_, ?_, ?_⟩ <;>
    simp [updateCourse, deleteCourse, addResource, deleteComment, hc, hm]

/-- Witness for C2: on the empty store every id is missing, and all four
operations return 404 for a non-owner caller. -/
theorem missing_entity_notfound_witness :
    updateCourse dbEmpty claimBob "c9" none =
        (.err 404 "Curs inexistent", dbEmpty) ∧
    deleteCourse dbEmpty claimBob "c9" =
        (.err 404 "Curs inexistent", dbEmpty) ∧
    addResource dbEmpty claimBob "c9" "r1" 3 none =
        (.err 404 "Curs inexistent", dbEmpty) ∧
    deleteComment dbEmpty claimBob "c9" =
        (.err 404 "Comentariu inexistent", dbEmpty) :=
  missing_entity_notfound dbEmpty claimBob "c9" none "r1" 3 none rfl rfl

/-- C3: an authenticated caller with role STUDENT posting to `/courses`
always gets 403 with the store unchanged, whatever the body — in
particular blank fields still yield 403, not 400, because the professor
gate runs before input validation. -/
theorem student_create_forbidden (db : DB) (user : IdClaim)
    (newId : String) (now : Nat) (body : Option CourseBody)
    (h : user.role = .STUDENT) :
    createCourse db user newId now body =
      (.err 403 "Doar profesorii pot crea sau modifica cursuri", db) := by
  simp [createCourse, requireProfessor, h]

/-- Witness for C3: the student Bob sending an all-blank body gets 403,
not 400, and no course is created. -/
theorem student_create_forbidden_witness :
    createCourse dbCourse claimBob "c2" 9 (some ⟨"", "", ""⟩) =
      (.err 403 "Doar profesorii pot crea sau modifica cursuri", dbCourse) :=
  student_create_forbidden dbCourse claimBob "c2" 9 (some ⟨"", "", ""⟩) rfl

/-- C4: for an existing course and a caller whose id differs from the
course's owner, PUT and DELETE on the course return 403 and leave the
store unchanged, whatever the request body. -/
theorem nonowner_update_delete_forbidden (db : DB) (user : IdClaim)
    (id : String) (body : Option UpdateBody) (course : Course)
    (hfind : db.courses.find? (fun c => c.id == id) = some course)
    (hown : course.ownerId ≠ user.sub) :
    updateCourse db user id body = (.err 403 "Nu ai acces la acest curs", db) ∧
    deleteCourse db user id = (.err 403 "Nu ai acces la acest curs", db) := by
  constructor <;> simp [updateCourse, deleteCourse, hfind, hown]

/-- Witness for C4: Bob, who does not own `c1`, gets 403 on PUT (even
with a body that would be invalid) and on DELETE, with the store
unchanged. -/
theorem nonowner_update_delete_forbidden_witness :
    updateCourse dbCourse claimBob "c1" (some ⟨some "", none, none⟩) =
        (.err 403 "Nu ai acces la acest curs", dbCourse) ∧
    deleteCourse dbCourse claimBob "c1" =
        (.err 403 "Nu ai acces la acest curs", dbCourse) :=
  nonowner_update_delete_forbidden dbCourse claimBob "c1"
    (some ⟨some "", none, none⟩) ⟨"c1", "Web Dev", "Frontend basics", "Web", 5, "u1"⟩
    rfl (by decide)

/-- C9: PUT `/courses/:id` validates every provided field before issuing
the single update, so whenever it returns 400 the store — hence the
course's title, description and category — is unchanged. -/
theorem update_invalid_leaves_unchanged (db : DB) (user : IdClaim)
    (id : String) (body : Option UpdateBody) (m : String)
    (h : (updateCourse db user id body).1 = .err 400 m) :
    (updateCourse db user id body).2 = db := by
  unfold updateCourse at h ⊢
  cases hf : db.courses.find? (fun c => c.id == id) with
  | none => rfl
  | some course =>
    rw [hf] at h
    dsimp only at h ⊢
    by_cases hown : course.ownerId ≠ user.sub
    · rw [if_pos hown]
    · rw [if_neg hown] at h ⊢
      by_cases h1 : (body.bind UpdateBody.title).any (fun t => strTrim t == "") = true
      · rw [if_pos h1]
      · rw [if_neg h1] at h ⊢
        by_cases h2 :
            (body.bind UpdateBody.description).any (fun d => strTrim d == "") = true
        · rw [if_pos h2]
        · rw [if_neg h2] at h ⊢
          by_cases h3 :
              (body.bind UpdateBody.category).any (fun c => strTrim c == "") = true
          · rw [if_pos h3]
          · rw [if_neg h3] at h
            simp at h

/-- Witness for C9: the owner sends a body whose title is valid but
whose description is blank; the response is 400 and the store is
unchanged, so the already-validated title was not written. -/
theorem update_invalid_leaves_unchanged_witness :
    (updateCourse dbCourse claimAna "c1"
        (some ⟨some "New title", some "   ", none⟩)).2 = dbCourse :=
  update_invalid_leaves_unchanged dbCourse claimAna "c1"
    (some ⟨some "New title", some "   ", none⟩) "description invalid" (by rfl)

/-- Two courses with distinct categories, for the listing witnesses. -/
def dbSearch : DB :=
  { users := [⟨"u1", "ana@x.ro", "Ana", "pw", .PROFESSOR⟩],
    courses :=
      [⟨"c1", "Intro to Web", "Learn HTML", "Web", 3, "u1"⟩,
       ⟨"c2", "Databases", "SQL basics", "Data", 5, "u1"⟩],
    resources := [], comments := [] }

/-- C5: with well-formed (trimmed, non-blank) query values, the listing
returns exactly the courses matching the case-insensitive substring
search over title/description and the case-insensitive category
equality; both filters conjoin and an omitted parameter leaves that
dimension unrestricted. -/
theorem list_courses_filter_exact (db : DB) (search category : Option String)
    (hs : ∀ s, search = some s → strTrim s = s ∧ s ≠ "")
    (hc : ∀ s, category = some s → strTrim s = s ∧ s ≠ "") (c : Course) :
    c ∈ listCourses db search category ↔
      c ∈ db.courses ∧
      (∀ s, search = some s →
        (containsInsensitive c.title s = true ∨
          containsInsensitive c.description s = true)) ∧
      (∀ s, category = some s → eqInsensitive c.category s = true) := by
  unfold listCourses
  rw [mem_sortCreatedDesc, List.mem_filter]
  unfold courseFilter
  cases search with
  | none =>
    cases category with
    | none => simp
    | some s =>
      obtain ⟨ht, hne⟩ := hc s rfl
      simp [ht, hne]
  | some s =>
    obtain ⟨ht, hne⟩ := hs s rfl
    cases category with
    | none => simp [ht, hne]
    | some s2 =>
      obtain ⟨ht2, hne2⟩ := hc s2 rfl
      simp [ht, hne, ht2, hne2, and_assoc]

/-- Witness for C5: in `dbSearch`, with `search=web` and `category=WEB`,
the course `c1` satisfies the instantiated characterisation (and in
particular is listed). -/
theorem list_courses_filter_exact_witness :
    (⟨"c1", "Intro to Web", "Learn HTML", "Web", 3, "u1"⟩ : Course) ∈
        listCourses dbSearch (some "web") (some "WEB") ↔
      (⟨"c1", "Intro to Web", "Learn HTML", "Web", 3, "u1"⟩ : Course) ∈
          dbSearch.courses ∧
      (∀ s, (some "web" : Option String) = some s →
        (containsInsensitive "Intro to Web" s = true ∨
          containsInsensitive "Learn HTML" s = true)) ∧
      (∀ s, (some "WEB" : Option String) = some s →
        eqInsensitive "Web" s = true) :=
  list_courses_filter_exact dbSearch (some "web") (some "WEB")
    (fun s h => by cases h; exact ⟨by decide, by decide⟩)
    (fun s h => by cases h; exact ⟨by decide, by decide⟩)
    ⟨"c1", "Intro to Web", "Learn HTML", "Web", 3, "u1"⟩

/-- C5 counterexample: the handler trims the query parameters, so with
`search=" web "` the course `c1` is returned although neither its title
nor its description contains the literal string `" web "`
case-insensitively — the listing is not exactly the set the claim
describes for padded parameters. -/
theorem list_courses_search_trim_counterexample :
    (⟨"c1", "Intro to Web", "Learn HTML", "Web", 3, "u1"⟩ : Course) ∈
        listCourses dbSearch (some " web ") none ∧
    containsInsensitive "Intro to Web" " web " = false ∧
    containsInsensitive "Learn HTML" " web " = false := by
  refine ⟨by decide, by decide, by decide⟩

/-- C10: the course listing is ordered newest-first by creation
timestamp, for every combination of search and category parameters. -/
theorem list_courses_sorted_desc (db : DB) (search category : Option String) :
    (listCourses db search category).Sorted
      (fun a b => b.createdAt ≤ a.createdAt) :=
  sortCreatedDesc_sorted Course.createdAt _

/-- C8: for an existing course, the detail fetch succeeds and carries
the course, its owner projection, its resources newest-first, and its
comments newest-first each with its author projection. -/
theorem get_course_detail (db : DB) (id : String) (course : Course)
    (hfind : db.courses.find? (fun c => c.id == id) = some course) :
    ∃ d, getCourse db id = .ok d ∧
      d.course = course ∧
      (∀ u, db.users.find? (fun v => v.id == course.ownerId) = some u →
        d.owner = some ⟨u.id, u.name⟩) ∧
      List.Perm d.resources
        (db.resources.filter (fun r => r.courseId == course.id)) ∧
      d.resources.Sorted (fun a b => b.createdAt ≤ a.createdAt) ∧
      List.Perm (d.comments.map CommentWithUser.comment)
        (db.comments.filter (fun m => m.courseId == course.id)) ∧
      (d.comments.map CommentWithUser.comment).Sorted
        (fun a b => b.createdAt ≤ a.createdAt) ∧
      (∀ cw ∈ d.comments, ∀ u,
        db.users.find? (fun x => x.id == cw.comment.userId) = some u →
        cw.user = some ⟨u.id, u.name⟩) := by
  unfold getCourse
  rw [hfind]
  have hmap :
      ((sortCreatedDesc Comment.createdAt
          (db.comments.filter (fun m => m.courseId == course.id))).map
        (fun m => (⟨m, (db.users.find? (fun u => u.id == m.userId)).map
            (fun u => ⟨u.id, u.name⟩)⟩ : CommentWithUser))).map
        CommentWithUser.comment =
      sortCreatedDesc Comment.createdAt
        (db.comments.filter (fun m => m.courseId == course.id)) := by
    rw [List.map_map]
    exact List.map_id _
  refine ⟨_, rfl, rfl, ?_, ?_, ?_, ?_, ?_, ?_⟩
  · intro u hu
    rw [hu]
    rfl
  · exact sortCreatedDesc_perm _ _
  · exact sortCreatedDesc_sorted _ _
  · rw [hmap]
    exact sortCreatedDesc_perm _ _
  · rw [hmap]
    exact sortCreatedDesc_sorted _ _
  · intro cw hcw u hu
    simp only [List.mem_map] at hcw
    obtain ⟨m, _, rfl⟩ := hcw
    rw [hu]
    rfl

/-- Store for the detail witness: one course with two resources and one
comment. -/
def dbDetail : DB :=
  { users := [⟨"u1", "ana@x.ro", "Ana", "pw", .PROFESSOR⟩,
              ⟨"u2", "bob@x.ro", "Bob", "pw", .STUDENT⟩],
    courses := [⟨"c1", "Web Dev", "Frontend basics", "Web", 5, "u1"⟩],
    resources := [⟨"r1", "Slides", "http://x/s", .PDF, 1, "c1"⟩,
                  ⟨"r2", "Video", "http://x/v", .VIDEO, 9, "c1"⟩],
    comments := [⟨"m1", "Nice", 4, "c1", "u2"⟩] }

/-- Witness for C8: the characterisation instantiated on `dbDetail` and
its course `c1`. -/
theorem get_course_detail_witness :
    ∃ d, getCourse dbDetail "c1" = .ok d ∧
      d.course = ⟨"c1", "Web Dev", "Frontend basics", "Web", 5, "u1"⟩ ∧
      (∀ u, dbDetail.users.find?
          (fun v => v.id == Course.ownerId ⟨"c1", "Web Dev", "Frontend basics", "Web", 5, "u1"⟩) = some u →
        d.owner = some ⟨u.id, u.name⟩) ∧
      List.Perm d.resources
        (dbDetail.resources.filter
          (fun r => r.courseId == Course.id ⟨"c1", "Web Dev", "Frontend basics", "Web", 5, "u1"⟩)) ∧
      d.resources.Sorted (fun a b => b.createdAt ≤ a.createdAt) ∧
      List.Perm (d.comments.map CommentWithUser.comment)
        (dbDetail.comments.filter
          (fun m => m.courseId == Course.id ⟨"c1", "Web Dev", "Frontend basics", "Web", 5, "u1"⟩)) ∧
      (d.comments.map CommentWithUser.comment).Sorted
        (fun a b => b.createdAt ≤ a.createdAt) ∧
      (∀ cw ∈ d.comments, ∀ u,
        dbDetail.users.find? (fun x => x.id == cw.comment.userId) = some u →
        cw.user = some ⟨u.id, u.name⟩) :=
  get_course_detail dbDetail "c1"
    ⟨"c1", "Web Dev", "Frontend basics", "Web", 5, "u1"⟩ rfl

end CourseLib
